import Mathlib

/-!
Shallow embedding of the checkout / cart / address / payment-reconciliation
core of the `ecommerce-django-backend` repository, together with proofs of
the claims about it.

Conventions of the embedding:
* Django `DecimalField(decimal_places=2)` money amounts are modelled as
  integers counting cents (`Int`), so `49.99` is `4999`.
* Each Django table is a Lean list of records; a view is a function from a
  state (the database) and a request to a response paired with the new
  state.  `transaction.atomic` blocks have rollback semantics: every path
  that raises inside the block returns the *original* state.
* Primary keys are allocated from a single `nextId` counter per state.
-/

namespace ECommerce

/-- Catalog product.  The `products` app's model file is outside the
embedded source tree; the fields used here (`slug`, `final_price`, `stock`)
are the ones declared by `products/serializers.py` and referenced by
`orders/views.py` and `orders/models.py`.  `finalPrice` is the effective
catalog price in cents. -/
structure Product where
  id : Nat
  slug : String
  finalPrice : Int
  stock : Nat
  deriving Repr, DecidableEq

/-- Row of `orders.models.ShippingAddress`.  Note the model declares
`is_default = models.BooleanField(default=True)`: a freshly created
address is default unless the caller overrides the flag. -/
structure ShippingAddress where
  id : Nat
  user : Nat
  full_name : String
  phone : String
  address : String
  city : String
  state : String
  zip_code : String
  is_default : Bool
  deriving Repr, DecidableEq

/-- Row of `orders.models.CartItem`; `cartUser` is the owner of the
one-to-one `Cart` the item belongs to. -/
structure CartItem where
  id : Nat
  cartUser : Nat
  productId : Nat
  quantity : Nat
  deriving Repr, DecidableEq

/-- Row of `orders.models.Order` (the fields the embedded views read or
write). -/
structure OrderRec where
  id : Nat
  user : Nat
  order_number : String
  total_amount : Int
  status : String
  shippingAddressId : Option Nat
  payment_method : String
  deriving Repr, DecidableEq

/-- Row of `orders.models.OrderItem`: the priced copy of one cart line. -/
structure OrderItemRec where
  orderId : Nat
  productId : Nat
  quantity : Nat
  price : Int
  deriving Repr, DecidableEq

/-- Database state of the `orders` app (plus the catalog it reads).
`carts` is the set of users owning a `Cart` row. -/
structure OrdersState where
  products : List Product
  carts : List Nat
  cartItems : List CartItem
  addresses : List ShippingAddress
  orders : List OrderRec
  orderItems : List OrderItemRec
  nextId : Nat
  deriving Repr, DecidableEq

/-- The shipping fields a checkout request carries (after the serializer's
camelCase → snake_case mapping). -/
structure AddressFields where
  full_name : String
  phone : String
  address : String
  city : String
  state : String
  zip_code : String
  deriving Repr, DecidableEq

/-- Validation of `ShippingAddressSerializer`: the `validate` hook together with the `CharField`
declarations: every field is required and non-blank, respects the model's
`max_length`, and the zip code is all digits with length at least 5. -/
def validAddress (f : AddressFields) : Bool :=
  f.full_name ≠ "" && f.full_name.length ≤ 255 &&
  f.phone ≠ "" && f.phone.length ≤ 15 &&
  f.address ≠ "" && f.address.length ≤ 255 &&
  f.city ≠ "" && f.city.length ≤ 100 &&
  f.state ≠ "" && f.state.length ≤ 100 &&
  f.zip_code ≠ "" && f.zip_code.length ≤ 10 &&
  f.zip_code.toList.all Char.isDigit && f.zip_code.length ≥ 5

/-- A checkout (`POST /place-order/`) request body.  `totalAmount` is
`request.data.get('total_amount')`: `none` models a missing or
non-decimal value (which makes `Order.objects.create` raise). -/
structure CheckoutInput where
  user : Nat
  shipping : AddressFields
  isDefault : Bool
  payment_method : String
  totalAmount : Option Int
  deriving Repr, DecidableEq

/-- Outcome of `PlaceOrderView.post`. -/
inductive CheckoutResult where
  | created (orderNumber : String)    -- 201
  | badRequest (msg : String)         -- 400
  | serverError                       -- 500 (exception caught, transaction rolled back)
  deriving Repr, DecidableEq

def CheckoutResult.isCreated : CheckoutResult → Bool
  | .created _ => true
  | _ => false

/-- Does an existing address row match the user and every validated field
(the `**validated_data` lookup of `get_or_create`, which excludes
`is_default`)? -/
def addrMatches (user : Nat) (f : AddressFields) (a : ShippingAddress) : Bool :=
  a.user == user && a.full_name == f.full_name && a.phone == f.phone &&
  a.address == f.address && a.city == f.city && a.state == f.state &&
  a.zip_code == f.zip_code

/-- Embedding of `ShippingAddress.objects.get_or_create(user=user, defaults=…, **fields)`.
Returns `none` when more than one row matches (`MultipleObjectsReturned`,
an exception that rolls the transaction back).  A created row carries the
model default `is_default = True`. -/
def getOrCreateAddress (s : OrdersState) (user : Nat) (f : AddressFields) :
    Option (OrdersState × ShippingAddress) :=
  match s.addresses.filter (addrMatches user f) with
  | [a] => some (s, a)
  | [] =>
      let a : ShippingAddress :=
        { id := s.nextId, user := user, full_name := f.full_name,
          phone := f.phone, address := f.address, city := f.city,
          state := f.state, zip_code := f.zip_code, is_default := true }
      some ({ s with addresses := a :: s.addresses, nextId := s.nextId + 1 }, a)
  | _ => none

/-- The default-flag enhancement of `PlaceOrderView.post` (steps 3c):
`filter(user=user, is_default=True).update(is_default=False)` followed by
setting `is_default = True` on the resolved row and saving it. -/
def setDefaultAddress (s : OrdersState) (user : Nat) (aid : Nat) : OrdersState :=
  { s with addresses := s.addresses.map fun a =>
      if a.id == aid then { a with is_default := true }
      else if a.user == user && a.is_default then { a with is_default := false }
      else a }

/-- Price the cart lines into `OrderItem` rows for order `oid`
(step 3e): one row per line, `price := item.product.final_price` looked up
in the catalog at this moment.  `none` models a dangling product reference
(impossible under the FK constraint; it would raise and roll back). -/
def pricedLines (s : OrdersState) (items : List CartItem) (oid : Nat) :
    Option (List OrderItemRec) :=
  match items with
  | [] => some []
  | it :: rest =>
    match s.products.find? (fun p => p.id == it.productId) with
    | none => none
    | some p =>
      (pricedLines s rest oid).map
        ({ orderId := oid, productId := it.productId,
           quantity := it.quantity, price := p.finalPrice } :: ·)

/-- The cart lines owned by `user` (`cart.items`). -/
def cartLines (s : OrdersState) (user : Nat) : List CartItem :=
  s.cartItems.filter (fun i => i.cartUser == user)

/-- Embedding of `Cart.total_price` (`orders/models.py`): the server-side basket total,
`Σ line.quantity × product.final_price` over the user's cart, in cents. -/
def cartTotal (s : OrdersState) (user : Nat) : Int :=
  ((cartLines s user).map fun it =>
    match s.products.find? (fun p => p.id == it.productId) with
    | some p => p.finalPrice * (it.quantity : Int)
    | none => 0).sum

/-- Embedding of `PlaceOrderView.post` (`orders/views.py` lines 59–154).  The
`transaction.atomic` block gives every raising path rollback semantics:
those branches return the original state `s`.  The commented-out server
side total recalculation of lines 90–93 is — faithfully — absent. -/
def PlaceOrderView_post (s : OrdersState) (inp : CheckoutInput) :
    CheckoutResult × OrdersState :=
  if !validAddress inp.shipping then
    (.badRequest "Invalid shipping details provided.", s)
  else if !(s.carts.contains inp.user) then
    -- get_object_or_404 raises Http404, caught by the generic handler → 500
    (.serverError, s)
  else
    let items := cartLines s inp.user
    if items.isEmpty then
      (.badRequest "Your vault is empty. Cannot place an order.", s)
    else
      match getOrCreateAddress s inp.user inp.shipping with
      | none => (.serverError, s)
      | some (s1, addr) =>
        let s2 := if inp.isDefault then setDefaultAddress s1 inp.user addr.id else s1
        match inp.totalAmount with
        | none => (.serverError, s)          -- Order.objects.create raises → rollback
        | some total =>
          let oid := s2.nextId
          let onum := "ORD-" ++ toString oid
          match pricedLines s2 items oid with
          | none => (.serverError, s)        -- dangling FK → raise → rollback
          | some newItems =>
            let ord : OrderRec :=
              { id := oid, user := inp.user, order_number := onum,
                total_amount := total, status := "processing",
                shippingAddressId := some addr.id,
                payment_method := inp.payment_method }
            (.created onum,
             { s2 with
                orders := ord :: s2.orders,
                orderItems := newItems ++ s2.orderItems,
                cartItems := s2.cartItems.filter (fun i => !(i.cartUser == inp.user)),
                nextId := oid + 1 })

/-- Outcome of `AddToCartView.post`. -/
inductive AddToCartResult where
  | ok                                 -- 200 "Artifact secured in vault"
  | badRequest (msg : String)          -- 400
  | notFound                           -- 404 (unknown slug)
  deriving Repr, DecidableEq

/-- Embedding of `AddToCartView.post` (`orders/views.py` lines 170–196): get-or-create
the user's cart, look the product up by slug, reject when stock is short,
then accumulate into an existing line or create one with the requested
quantity. -/
def AddToCartView_post (s : OrdersState) (user : Nat) (slug : Option String)
    (quantity : Nat) : AddToCartResult × OrdersState :=
  let s0 := if s.carts.contains user then s
            else { s with carts := user :: s.carts }
  match slug with
  | none => (.badRequest "Product slug is required", s0)
  | some sl =>
    match s0.products.find? (fun p => p.slug == sl) with
    | none => (.notFound, s0)
    | some p =>
      if p.stock < quantity then
        (.badRequest "Not enough stock available.", s0)
      else
        match s0.cartItems.find? (fun i => i.cartUser == user && i.productId == p.id) with
        | some it =>
          (.ok, { s0 with cartItems := s0.cartItems.map fun i =>
                    if i.id == it.id then { i with quantity := i.quantity + quantity }
                    else i })
        | none =>
          (.ok, { s0 with
                   cartItems := { id := s0.nextId, cartUser := user,
                                  productId := p.id, quantity := quantity } :: s0.cartItems,
                   nextId := s0.nextId + 1 })

/-- Outcome of `UpdateCartItemView.patch`. -/
inductive UpdateCartResult where
  | ok (item : CartItem)               -- 200 with serialized updated line
  | deleted                            -- 204 "Item removed"
  | badRequest                         -- 400 "Invalid quantity"
  | notFound                           -- 404 from get_object_or_404
  deriving Repr, DecidableEq

/-- Embedding of `UpdateCartItemView.patch` (`orders/views.py` lines 199–217):
`get_object_or_404(CartItem, pk=pk, cart__user=user)`, then a positive
quantity overwrites the line and returns it, a non-positive one deletes
the line, and a missing quantity is a 400. -/
def UpdateCartItemView_patch (s : OrdersState) (user : Nat) (pk : Nat)
    (quantity : Option Int) : UpdateCartResult × OrdersState :=
  match s.cartItems.find? (fun i => i.id == pk && i.cartUser == user) with
  | none => (.notFound, s)
  | some item =>
    match quantity with
    | none => (.badRequest, s)
    | some q =>
      if q > 0 then
        let item' := { item with quantity := q.toNat }
        (.ok item',
         { s with cartItems := s.cartItems.map fun i =>
             if i.id == pk then { i with quantity := q.toNat } else i })
      else
        (.deleted, { s with cartItems := s.cartItems.filter (fun i => !(i.id == pk)) })

/-- Outcome of `DefaultShippingAddressView.get_object`. -/
inductive DefaultAddressResult where
  | found (a : ShippingAddress)        -- 200
  | notFound                           -- 404 NotFound
  | serverError                        -- uncaught MultipleObjectsReturned
  deriving Repr, DecidableEq

/-- Embedding of `DefaultShippingAddressView.get_object` (`orders/views.py` lines
241–259): `get(user=user, is_default=True)`, falling back on
`filter(user=user).first()` when no default exists, and `NotFound` when
the user owns no address at all.  The view only reads; it never writes. -/
def DefaultShippingAddressView_get_object (s : OrdersState) (user : Nat) :
    DefaultAddressResult :=
  match s.addresses.filter (fun a => a.user == user && a.is_default) with
  | [a] => .found a
  | [] =>
    match s.addresses.filter (fun a => a.user == user) with
    | [] => .notFound
    | a :: _ => .found a
  | _ => .serverError

/-- Modelled from the spec: the catalog (`products` app) is an external
collaborator whose model file is outside the embedded source tree; this is
the generic "later catalog price change" the spec's historical-accuracy
sentence quantifies over — an edit of one product's effective price. -/
def productUpdatePrice (s : OrdersState) (pid : Nat) (newPrice : Int) : OrdersState :=
  { s with products := s.products.map fun p =>
      if p.id == pid then { p with finalPrice := newPrice } else p }

/-! ## Payments app (`payments/models.py`, `payments/views.py`) -/

/-- Status choices of `payments.models.Payment` (`STATUS_CHOICES`). -/
inductive PayStatus where
  | pending | processing | succeeded | failed | refunded | cancelled
  deriving Repr, DecidableEq

/-- Row of `payments.models.Payment` (the fields the webhook and
verification views read or write).  `payment_id` carries a DB unique
constraint; `order_id` does not. -/
structure Payment where
  id : Nat
  payment_id : String
  order_id : Option String
  amount : Int
  status : PayStatus
  completed_at : Option Nat
  deriving Repr, DecidableEq

/-- Row of `payments.models.Transaction`: append-only, `transaction_id`
has no unique constraint. -/
structure TransactionRec where
  id : Nat
  paymentPk : Nat
  transaction_id : Option String
  transaction_type : String
  amount : Int
  status : String
  deriving Repr, DecidableEq

/-- Row of `payments.models.PaymentLog` (written by `log_payment_event`). -/
structure PaymentLogRec where
  paymentPk : Option Nat
  event_type : String
  level : String
  deriving Repr, DecidableEq

/-- Database state of the `payments` app.  `loggerWarnings` models the
messages emitted through Python's `logger.warning` (observable log output,
not a table). -/
structure PayState where
  payments : List Payment
  transactions : List TransactionRec
  paymentLogs : List PaymentLogRec
  loggerWarnings : List String
  nextId : Nat
  deriving Repr, DecidableEq

/-- The Stripe event types `stripe_webhook` dispatches on. -/
inductive StripeEventType where
  | paymentIntentSucceeded
  | paymentIntentFailed
  | otherEvent
  deriving Repr, DecidableEq

/-- A Stripe webhook event after `stripe.Webhook.construct_event`
succeeded: the event type string and `event['data']['object']['id']`. -/
structure StripeEvent where
  type : StripeEventType
  intentId : String
  deriving Repr, DecidableEq

/-- HTTP status of a webhook response. -/
inductive WebhookResult where
  | ok200
  | bad400
  | err500
  deriving Repr, DecidableEq

/-- Embedding of the `Payment.objects.get(payment_id=pid)` lookup: the filter result, to be
matched on.  With the DB unique constraint on `payment_id` at most one row
matches. -/
def paymentsById (s : PayState) (pid : String) : List Payment :=
  s.payments.filter (fun p => p.payment_id == pid)

/-- Overwrite (`save()`) every payment row matching `payment_id = pid`.
Under the unique constraint this is the single fetched row. -/
def savePaymentById (s : PayState) (pid : String) (upd : Payment → Payment) : PayState :=
  { s with payments := s.payments.map fun p =>
      if p.payment_id == pid then upd p else p }

/-- Embedding of `stripe_webhook` (`payments/views.py` lines 146–213).  The argument
`verified` is the outcome of `stripe.Webhook.construct_event`: `none`
means the payload or signature was rejected (400).  A verified
`payment_intent.succeeded` sets the payment to `succeeded`, stamps
`completed_at`, appends a `Transaction(charge, succeeded)` and a
`PaymentLog`; a verified `payment_intent.payment_failed` sets `failed`
and appends a `PaymentLog`; an unknown `payment_id` only logs a warning.
No branch checks the current status or deduplicates by transaction id. -/
def stripe_webhook (s : PayState) (verified : Option StripeEvent) (now : Nat) :
    WebhookResult × PayState :=
  match verified with
  | none => (.bad400, s)
  | some ev =>
    match ev.type with
    | .paymentIntentSucceeded =>
      match paymentsById s ev.intentId with
      | [p] =>
        let s1 := savePaymentById s ev.intentId
          (fun q => { q with status := .succeeded, completed_at := some now })
        let s2 := { s1 with
          transactions :=
            { id := s1.nextId, paymentPk := p.id,
              transaction_id := some ev.intentId, transaction_type := "charge",
              amount := p.amount, status := "succeeded" } :: s1.transactions,
          paymentLogs :=
            { paymentPk := some p.id, event_type := "payment_succeeded",
              level := "info" } :: s1.paymentLogs,
          nextId := s1.nextId + 1 }
        (.ok200, s2)
      | [] =>
        (.ok200, { s with loggerWarnings :=
          ("Payment not found for intent: " ++ ev.intentId) :: s.loggerWarnings })
      | _ => (.err500, s)   -- MultipleObjectsReturned, impossible under the unique constraint
    | .paymentIntentFailed =>
      match paymentsById s ev.intentId with
      | [p] =>
        let s1 := savePaymentById s ev.intentId (fun q => { q with status := .failed })
        (.ok200, { s1 with paymentLogs :=
          { paymentPk := some p.id, event_type := "payment_failed",
            level := "error" } :: s1.paymentLogs })
      | [] =>
        (.ok200, { s with loggerWarnings :=
          ("Payment not found for intent: " ++ ev.intentId) :: s.loggerWarnings })
      | _ => (.err500, s)
    | .otherEvent => (.ok200, s)

/-- A Razorpay verification request body, plus whether
`verify_payment_signature` accepts it. -/
structure RazorpayVerifyInput where
  razorpay_order_id : String
  razorpay_payment_id : String
  signatureValid : Bool
  deriving Repr, DecidableEq

/-- Outcome of `razorpay_verify`. -/
inductive RazorpayVerifyResult where
  | success (payment_id : String)      -- JSON {status: success}
  | sigError                           -- 400, signature verification failed
  | notFound                           -- 404, payment record not found
  | otherError                         -- 400 from the generic handler
  deriving Repr, DecidableEq

/-- Embedding of `razorpay_verify` (`payments/views.py` lines 303–366): after the
signature check, `Payment.objects.get(order_id=…)` (no unique constraint
— several matches raise into the generic 400 handler), then the payment's
`payment_id` is overwritten with the provider's id, status set to
`succeeded`, `completed_at` stamped, and a `Transaction(charge,
succeeded)` plus a `PaymentLog` appended.  No branch checks the current
status or deduplicates. -/
def razorpay_verify (s : PayState) (inp : RazorpayVerifyInput) (now : Nat) :
    RazorpayVerifyResult × PayState :=
  if !inp.signatureValid then (.sigError, s)
  else
    match s.payments.filter (fun p => p.order_id == some inp.razorpay_order_id) with
    | [p] =>
      let s1 := { s with payments := s.payments.map fun (q : Payment) =>
        if q.id == p.id then
          { q with payment_id := inp.razorpay_payment_id, status := .succeeded,
                   completed_at := some now }
        else q }
      let s2 := { s1 with
        transactions :=
          { id := s1.nextId, paymentPk := p.id,
            transaction_id := some inp.razorpay_payment_id,
            transaction_type := "charge", amount := p.amount,
            status := "succeeded" } :: s1.transactions,
        paymentLogs :=
          { paymentPk := some p.id, event_type := "payment_verified",
            level := "info" } :: s1.paymentLogs,
        nextId := s1.nextId + 1 }
      (.success inp.razorpay_payment_id, s2)
    | [] => (.notFound, s)
    | _ => (.otherError, s)

/-! ## Concrete fixtures used by witnesses and counterexamples -/

/-- A catalog product with effective price 49.99 and stock 5. -/
def exProduct : Product := ⟨10, "relic", 4999, 5⟩

/-- A valid set of shipping fields. -/
def exFieldsA : AddressFields := ⟨"Alice", "5551234", "1 Road", "Town", "TS", "12345"⟩

/-- A second valid set of shipping fields, differing in the street. -/
def exFieldsB : AddressFields := ⟨"Alice", "5551234", "2 Road", "Town", "TS", "12345"⟩

/-- A user with one cart line (quantity 1 of `exProduct`) and no address. -/
def exState0 : OrdersState :=
  { products := [exProduct], carts := [1], cartItems := [⟨100, 1, 10, 1⟩],
    addresses := [], orders := [], orderItems := [], nextId := 200 }

/-- A checkout request reporting a client total of 39.99 against the
server-side basket total of 49.99. -/
def exInp3999 : CheckoutInput := ⟨1, exFieldsA, false, "COD", some 3999⟩

/-- A checkout request with the second address and no default flag. -/
def exInpB : CheckoutInput := ⟨1, exFieldsB, false, "COD", some 3999⟩

/-- A checkout request asking to make the resolved address the default. -/
def exInpDefault : CheckoutInput := ⟨1, exFieldsA, true, "COD", some 4999⟩

/-- An address of user 1 flagged default. -/
def exAddrDefault : ShippingAddress :=
  ⟨5, 1, "Alice", "5551234", "1 Road", "Town", "TS", "12345", true⟩

/-- An address of user 1 not flagged default. -/
def exAddrPlain : ShippingAddress :=
  ⟨6, 1, "Alice", "5551234", "3 Road", "Town", "TS", "12345", false⟩

/-- A state whose only address is user 1's default address. -/
def exStateDefAddr : OrdersState :=
  { products := [], carts := [], cartItems := [], addresses := [exAddrDefault],
    orders := [], orderItems := [], nextId := 300 }

/-- A state whose only address is user 1's non-default address. -/
def exStatePlainAddr : OrdersState :=
  { products := [], carts := [], cartItems := [], addresses := [exAddrPlain],
    orders := [], orderItems := [], nextId := 300 }

/-- A state with no addresses at all. -/
def exStateNoAddr : OrdersState :=
  { products := [], carts := [], cartItems := [], addresses := [],
    orders := [], orderItems := [], nextId := 300 }

/-- A pending payment correlated to Stripe intent `pi_1`. -/
def exPayPending : Payment := ⟨1, "pi_1", none, 4999, .pending, none⟩

/-- A payment that already reached `succeeded`. -/
def exPaySucceeded : Payment := ⟨1, "pi_1", none, 4999, .succeeded, some 5⟩

/-- A payments store holding only the pending payment. -/
def exPayState : PayState := ⟨[exPayPending], [], [], [], 50⟩

/-- A payments store holding only the succeeded payment. -/
def exPayStateS : PayState := ⟨[exPaySucceeded], [], [], [], 50⟩

/-- A verified `payment_intent.succeeded` event for `pi_1`. -/
def exEvSucc : StripeEvent := ⟨.paymentIntentSucceeded, "pi_1"⟩

/-- A verified `payment_intent.payment_failed` event for `pi_1`. -/
def exEvFail : StripeEvent := ⟨.paymentIntentFailed, "pi_1"⟩

/-! ## Helper lemmas -/

theorem CheckoutResult.isCreated_eq_true {r : CheckoutResult}
    (h : r.isCreated = true) : ∃ n, r = .created n := by
  cases r with
  | created n => exact ⟨n, rfl⟩
  | badRequest m => simp [CheckoutResult.isCreated] at h
  | serverError => simp [CheckoutResult.isCreated] at h

theorem getOrCreateAddress_frame {s : OrdersState} {u : Nat} {f : AddressFields}
    {s1 : OrdersState} {a : ShippingAddress}
    (h : getOrCreateAddress s u f = some (s1, a)) :
    s1.products = s.products ∧ s1.carts = s.carts ∧ s1.cartItems = s.cartItems ∧
    s1.orders = s.orders ∧ s1.orderItems = s.orderItems := by
  unfold getOrCreateAddress at h
  split at h
  · simp only [Option.some.injEq, Prod.mk.injEq] at h
    obtain ⟨h1, -⟩ := h
    subst h1
    exact ⟨rfl, rfl, rfl, rfl, rfl⟩
  · simp only [Option.some.injEq, Prod.mk.injEq] at h
    obtain ⟨h1, -⟩ := h
    subst h1
    exact ⟨rfl, rfl, rfl, rfl, rfl⟩
  · exact absurd h (by simp)

theorem condSetDefault_frame (b : Bool) (s1 : OrdersState) (u aid : Nat) :
    (if b then setDefaultAddress s1 u aid else s1).products = s1.products ∧
    (if b then setDefaultAddress s1 u aid else s1).carts = s1.carts ∧
    (if b then setDefaultAddress s1 u aid else s1).cartItems = s1.cartItems ∧
    (if b then setDefaultAddress s1 u aid else s1).orders = s1.orders ∧
    (if b then setDefaultAddress s1 u aid else s1).orderItems = s1.orderItems ∧
    (if b then setDefaultAddress s1 u aid else s1).nextId = s1.nextId := by
  cases b <;> exact ⟨rfl, rfl, rfl, rfl, rfl, rfl⟩

theorem pricedLines_products_congr {s t : OrdersState} (h : s.products = t.products) :
    ∀ (items : List CartItem) (oid : Nat), pricedLines s items oid = pricedLines t items oid := by
  intro items oid
  induction items with
  | nil => rfl
  | cons it rest ih => simp only [pricedLines, h, ih]

theorem filter_not_filter (l : List CartItem) (u : Nat) :
    (l.filter fun i => !(i.cartUser == u)).filter (fun i => i.cartUser == u) = [] := by
  induction l with
  | nil => rfl
  | cons a t ih =>
    by_cases h : a.cartUser == u
    · simp [List.filter_cons, h, ih]
    · simp [List.filter_cons, h, ih]

theorem placeOrder_error_state {s : OrdersState} {inp : CheckoutInput}
    {r : CheckoutResult} {s' : OrdersState}
    (h : PlaceOrderView_post s inp = (r, s')) (hr : r.isCreated = false) :
    s' = s := by
  by_cases hval : validAddress inp.shipping
  case neg =>
    simp [PlaceOrderView_post, hval] at h
    exact h.2.symm
  by_cases hcart : inp.user ∈ s.carts
  case neg =>
    simp [PlaceOrderView_post, hval, hcart] at h
    exact h.2.symm
  by_cases hne : cartLines s inp.user = []
  case pos =>
    simp [PlaceOrderView_post, hval, hcart, hne] at h
    exact h.2.symm
  have hne' : (cartLines s inp.user).isEmpty = false := by
    rw [Bool.eq_false_iff]
    intro hcontra
    exact hne (List.isEmpty_iff.mp hcontra)
  cases hgca : getOrCreateAddress s inp.user inp.shipping with
  | none =>
    simp [PlaceOrderView_post, hval, hcart, hne', hgca] at h
    exact h.2.symm
  | some pr =>
    obtain ⟨s1, addr⟩ := pr
    cases htot : inp.totalAmount with
    | none =>
      simp [PlaceOrderView_post, hval, hcart, hne', hgca, htot] at h
      exact h.2.symm
    | some total =>
      cases hpl : pricedLines (if inp.isDefault then setDefaultAddress s1 inp.user addr.id else s1)
          (cartLines s inp.user)
          (if inp.isDefault then setDefaultAddress s1 inp.user addr.id else s1).nextId with
      | none =>
        simp [PlaceOrderView_post, hval, hcart, hne', hgca, htot, hpl] at h
        exact h.2.symm
      | some newItems =>
        simp [PlaceOrderView_post, hval, hcart, hne', hgca, htot, hpl] at h
        rw [← h.1] at hr
        simp [CheckoutResult.isCreated] at hr

theorem placeOrder_created_inv {s : OrdersState} {inp : CheckoutInput}
    {n : String} {s' : OrdersState}
    (h : PlaceOrderView_post s inp = (.created n, s')) :
    ∃ s1 addr total newItems,
      getOrCreateAddress s inp.user inp.shipping = some (s1, addr) ∧
      inp.totalAmount = some total ∧
      cartLines s inp.user ≠ [] ∧
      (let s2 := if inp.isDefault then setDefaultAddress s1 inp.user addr.id else s1
       pricedLines s2 (cartLines s inp.user) s2.nextId = some newItems ∧
       n = "ORD-" ++ toString s2.nextId ∧
       s' = { s2 with
               orders := { id := s2.nextId, user := inp.user,
                           order_number := "ORD-" ++ toString s2.nextId,
                           total_amount := total, status := "processing",
                           shippingAddressId := some addr.id,
                           payment_method := inp.payment_method } :: s2.orders,
               orderItems := newItems ++ s2.orderItems,
               cartItems := s2.cartItems.filter (fun i => !(i.cartUser == inp.user)),
               nextId := s2.nextId + 1 }) := by
  by_cases hval : validAddress inp.shipping
  case neg => simp [PlaceOrderView_post, hval] at h
  by_cases hcart : inp.user ∈ s.carts
  case neg => simp [PlaceOrderView_post, hval, hcart] at h
  by_cases hne : cartLines s inp.user = []
  case pos => simp [PlaceOrderView_post, hval, hcart, hne] at h
  have hne' : (cartLines s inp.user).isEmpty = false := by
    rw [Bool.eq_false_iff]
    intro hcontra
    exact hne (List.isEmpty_iff.mp hcontra)
  cases hgca : getOrCreateAddress s inp.user inp.shipping with
  | none => simp [PlaceOrderView_post, hval, hcart, hne', hgca] at h
  | some pr =>
    obtain ⟨s1, addr⟩ := pr
    cases htot : inp.totalAmount with
    | none => simp [PlaceOrderView_post, hval, hcart, hne', hgca, htot] at h
    | some total =>
      cases hpl : pricedLines (if inp.isDefault then setDefaultAddress s1 inp.user addr.id else s1)
          (cartLines s inp.user)
          (if inp.isDefault then setDefaultAddress s1 inp.user addr.id else s1).nextId with
      | none =>
        simp [PlaceOrderView_post, hval, hcart, hne', hgca, htot, hpl] at h
      | some newItems =>
        simp [PlaceOrderView_post, hval, hcart, hne', hgca, htot, hpl] at h
        exact ⟨s1, addr, total, newItems, rfl, rfl, hne, hpl, h.1.symm, h.2.symm⟩

/-! ## Claim theorems -/

/-- C1: for every user whose basket has at least one line, checkout is
all-or-nothing — either the call returns 201 having created exactly one
new Order whose items are the basket's lines priced from the catalog at
checkout time, with the basket left empty; or the call returns an error
and the state (orders, items, addresses, basket — everything) is exactly
the pre-call state.  No other outcome is observable. -/
theorem C1_checkout_all_or_nothing (s : OrdersState) (inp : CheckoutInput)
    (hne : cartLines s inp.user ≠ []) :
    (∃ ord newItems,
      (PlaceOrderView_post s inp).1 = CheckoutResult.created ord.order_number ∧
      (PlaceOrderView_post s inp).2.orders = ord :: s.orders ∧
      pricedLines s (cartLines s inp.user) ord.id = some newItems ∧
      (PlaceOrderView_post s inp).2.orderItems = newItems ++ s.orderItems ∧
      cartLines (PlaceOrderView_post s inp).2 inp.user = []) ∨
    ((PlaceOrderView_post s inp).1.isCreated = false ∧
     (PlaceOrderView_post s inp).2 = s) := by
  cases hc : (PlaceOrderView_post s inp).1.isCreated with
  | false =>
    right
    exact ⟨rfl, placeOrder_error_state (Prod.mk.eta).symm hc⟩
  | true =>
    left
    obtain ⟨n, hn⟩ := CheckoutResult.isCreated_eq_true hc
    have h : PlaceOrderView_post s inp = (.created n, (PlaceOrderView_post s inp).2) := by
      rw [← hn]
    obtain ⟨s1, addr, total, newItems, hgca, htot, -, hrest⟩ := placeOrder_created_inv h
    dsimp only at hrest
    obtain ⟨hpl, hn2, hs'⟩ := hrest
    obtain ⟨hp1, hc1, hci1, ho1, hoi1⟩ := getOrCreateAddress_frame hgca
    obtain ⟨hp2, hc2, hci2, ho2, hoi2, hni2⟩ :=
      condSetDefault_frame inp.isDefault s1 inp.user addr.id
    refine ⟨{ id := (if inp.isDefault then setDefaultAddress s1 inp.user addr.id else s1).nextId,
              user := inp.user,
              order_number := "ORD-" ++ toString
                (if inp.isDefault then setDefaultAddress s1 inp.user addr.id else s1).nextId,
              total_amount := total, status := "processing",
              shippingAddressId := some addr.id,
              payment_method := inp.payment_method }, newItems, ?_, ?_, ?_, ?_, ?_⟩
    · rw [hn, hn2]
    · have h2 : (if inp.isDefault then setDefaultAddress s1 inp.user addr.id else s1).orders
          = s.orders := ho2.trans ho1
      rw [hs']
      simp [h2]
    · have hps : s.products =
          (if inp.isDefault then setDefaultAddress s1 inp.user addr.id else s1).products :=
        (hp2.trans hp1).symm
      exact (pricedLines_products_congr hps _ _).trans hpl
    · have h4 : (if inp.isDefault then setDefaultAddress s1 inp.user addr.id else s1).orderItems
          = s.orderItems := hoi2.trans hoi1
      rw [hs']
      simp [h4]
    · rw [cartLines, hs']
      exact filter_not_filter _ _

/-- Witness for C1 at a concrete one-line basket. -/
theorem C1_checkout_all_or_nothing_witness :
    (∃ ord newItems,
      (PlaceOrderView_post exState0 exInp3999).1 = CheckoutResult.created ord.order_number ∧
      (PlaceOrderView_post exState0 exInp3999).2.orders = ord :: exState0.orders ∧
      pricedLines exState0 (cartLines exState0 exInp3999.user) ord.id = some newItems ∧
      (PlaceOrderView_post exState0 exInp3999).2.orderItems = newItems ++ exState0.orderItems ∧
      cartLines (PlaceOrderView_post exState0 exInp3999).2 exInp3999.user = []) ∨
    ((PlaceOrderView_post exState0 exInp3999).1.isCreated = false ∧
     (PlaceOrderView_post exState0 exInp3999).2 = exState0) :=
  C1_checkout_all_or_nothing exState0 exInp3999 (by decide)

/-- C10: a successful checkout stores the client-reported total verbatim
as the Order's `total_amount` (no recomputation), and on the concrete
49.99-basket / 39.99-client-total input the stored total (39.99) differs
from the sum of the order's items (49.99). -/
theorem C10_total_amount_client_verbatim :
    (∀ (s : OrdersState) (inp : CheckoutInput) (t : Int) (n : String) (s' : OrdersState),
      inp.totalAmount = some t →
      PlaceOrderView_post s inp = (.created n, s') →
      ∃ ord, s'.orders = ord :: s.orders ∧ ord.total_amount = t) ∧
    ((PlaceOrderView_post exState0 exInp3999).2.orders.map (fun o => o.total_amount) = [3999] ∧
     ((PlaceOrderView_post exState0 exInp3999).2.orderItems.map
        (fun i => (i.quantity : Int) * i.price)).sum = 4999) := by
  refine ⟨?_, by decide, by decide⟩
  intro s inp t n s' htot h
  obtain ⟨s1, addr, total, newItems, hgca, htot', -, hrest⟩ := placeOrder_created_inv h
  dsimp only at hrest
  obtain ⟨-, -, hs'⟩ := hrest
  rw [htot, Option.some.injEq] at htot'
  obtain ⟨-, -, -, ho1, -⟩ := getOrCreateAddress_frame hgca
  obtain ⟨-, -, -, ho2, -, -⟩ := condSetDefault_frame inp.isDefault s1 inp.user addr.id
  refine ⟨{ id := (if inp.isDefault then setDefaultAddress s1 inp.user addr.id else s1).nextId,
            user := inp.user,
            order_number := "ORD-" ++ toString
              (if inp.isDefault then setDefaultAddress s1 inp.user addr.id else s1).nextId,
            total_amount := total, status := "processing",
            shippingAddressId := some addr.id,
            payment_method := inp.payment_method }, ?_, ?_⟩
  · have h2 : (if inp.isDefault then setDefaultAddress s1 inp.user addr.id else s1).orders
        = s.orders := ho2.trans ho1
    rw [hs']
    simp [h2]
  · exact htot'.symm

/-- Witness for C10's universal part at a concrete checkout. -/
theorem C10_total_amount_client_verbatim_witness :
    ∃ ord, (PlaceOrderView_post exState0 exInpDefault).2.orders = ord :: exState0.orders ∧
      ord.total_amount = 4999 :=
  C10_total_amount_client_verbatim.1 exState0 exInpDefault 4999 "ORD-201"
    (PlaceOrderView_post exState0 exInpDefault).2 rfl rfl

/-- C2: the server does NOT recompute the basket total against the client
figure — the check is commented out in the source (its own comment calls
it a vital security step).  On a basket whose server-side total is 49.99,
a checkout reporting a client total of 39.99 is accepted (201) and the
Order is created storing 39.99, instead of being rejected with
`PriceMismatch`. -/
theorem C2_missing_price_mismatch_check :
    cartTotal exState0 1 = 4999 ∧
    exInp3999.totalAmount = some 3999 ∧
    (PlaceOrderView_post exState0 exInp3999).1 = CheckoutResult.created "ORD-201" ∧
    (PlaceOrderView_post exState0 exInp3999).2.orders.map (fun o => o.total_amount) = [3999] := by
  refine ⟨by decide, rfl, by decide, by decide⟩

theorem pricedLines_spec {s : OrdersState} :
    ∀ {items : List CartItem} {oid : Nat} {out : List OrderItemRec},
      pricedLines s items oid = some out →
      List.Forall₂ (fun (it : CartItem) (oi : OrderItemRec) =>
        oi.orderId = oid ∧ oi.productId = it.productId ∧ oi.quantity = it.quantity ∧
        ∃ p, s.products.find? (fun q => q.id == it.productId) = some p ∧
          oi.price = p.finalPrice) items out := by
  intro items
  induction items with
  | nil =>
    intro oid out h
    simp only [pricedLines, Option.some.injEq] at h
    rw [← h]
    exact List.Forall₂.nil
  | cons it rest ih =>
    intro oid out h
    simp only [pricedLines] at h
    cases hf : s.products.find? (fun p => p.id == it.productId) with
    | none => rw [hf] at h; simp at h
    | some p =>
      rw [hf] at h
      cases hr : pricedLines s rest oid with
      | none => rw [hr] at h; simp at h
      | some tail =>
        rw [hr] at h
        simp only [Option.map_some', Option.some.injEq] at h
        rw [← h]
        exact List.Forall₂.cons ⟨rfl, rfl, rfl, p, hf, rfl⟩ (ih hr)

/-- C7: a successful checkout creates one OrderItem per basket line, with
the same quantity and with the stored `price` equal to the product's
catalog `final_price` at the moment of checkout; and a later catalog
price change (`productUpdatePrice`) leaves the stored OrderItem prices
untouched. -/
theorem C7_prices_copied_at_checkout (s : OrdersState) (inp : CheckoutInput)
    (n : String) (s' : OrdersState)
    (h : PlaceOrderView_post s inp = (.created n, s')) :
    ∃ ord newItems,
      s'.orders = ord :: s.orders ∧
      s'.orderItems = newItems ++ s.orderItems ∧
      List.Forall₂ (fun (it : CartItem) (oi : OrderItemRec) =>
        oi.orderId = ord.id ∧ oi.productId = it.productId ∧ oi.quantity = it.quantity ∧
        ∃ p, s.products.find? (fun q => q.id == it.productId) = some p ∧
          oi.price = p.finalPrice) (cartLines s inp.user) newItems ∧
      (∀ pid np, (productUpdatePrice s' pid np).orderItems = s'.orderItems) := by
  obtain ⟨s1, addr, total, newItems, hgca, htot, -, hrest⟩ := placeOrder_created_inv h
  dsimp only at hrest
  obtain ⟨hpl, hn2, hs'⟩ := hrest
  obtain ⟨hp1, -, -, ho1, hoi1⟩ := getOrCreateAddress_frame hgca
  obtain ⟨hp2, -, -, ho2, hoi2, -⟩ := condSetDefault_frame inp.isDefault s1 inp.user addr.id
  have hps : s.products =
      (if inp.isDefault then setDefaultAddress s1 inp.user addr.id else s1).products :=
    (hp2.trans hp1).symm
  have hpl' : pricedLines s (cartLines s inp.user)
      (if inp.isDefault then setDefaultAddress s1 inp.user addr.id else s1).nextId
      = some newItems := (pricedLines_products_congr hps _ _).trans hpl
  refine ⟨{ id := (if inp.isDefault then setDefaultAddress s1 inp.user addr.id else s1).nextId,
            user := inp.user,
            order_number := "ORD-" ++ toString
              (if inp.isDefault then setDefaultAddress s1 inp.user addr.id else s1).nextId,
            total_amount := total, status := "processing",
            shippingAddressId := some addr.id,
            payment_method := inp.payment_method }, newItems, ?_, ?_, ?_, ?_⟩
  · have h2 : (if inp.isDefault then setDefaultAddress s1 inp.user addr.id else s1).orders
        = s.orders := ho2.trans ho1
    rw [hs']
    simp [h2]
  · have h4 : (if inp.isDefault then setDefaultAddress s1 inp.user addr.id else s1).orderItems
        = s.orderItems := hoi2.trans hoi1
    rw [hs']
    simp [h4]
  · exact pricedLines_spec hpl'
  · intro pid np
    rfl

/-- Witness for C7 at a concrete checkout. -/
theorem C7_prices_copied_at_checkout_witness :
    ∃ ord newItems,
      ((PlaceOrderView_post exState0 exInpDefault).2).orders = ord :: exState0.orders ∧
      ((PlaceOrderView_post exState0 exInpDefault).2).orderItems = newItems ++ exState0.orderItems ∧
      List.Forall₂ (fun (it : CartItem) (oi : OrderItemRec) =>
        oi.orderId = ord.id ∧ oi.productId = it.productId ∧ oi.quantity = it.quantity ∧
        ∃ p, exState0.products.find? (fun q => q.id == it.productId) = some p ∧
          oi.price = p.finalPrice) (cartLines exState0 exInpDefault.user) newItems ∧
      (∀ pid np, (productUpdatePrice ((PlaceOrderView_post exState0 exInpDefault).2) pid np).orderItems
          = ((PlaceOrderView_post exState0 exInpDefault).2).orderItems) :=
  C7_prices_copied_at_checkout exState0 exInpDefault "ORD-201"
    (PlaceOrderView_post exState0 exInpDefault).2 rfl

/-- C8: for a cart line owned by the requesting user, a PATCH with a
positive quantity overwrites exactly that line's quantity and returns the
updated line with 200, while a PATCH with quantity ≤ 0 deletes the line
and answers 204 (a deletion signal, not an error); all other cart lines
are unchanged in both cases. -/
theorem C8_cart_update_or_delete (s : OrdersState) (user pk : Nat) (item : CartItem)
    (qv : Int)
    (hfind : s.cartItems.find? (fun i => i.id == pk && i.cartUser == user) = some item) :
    (qv > 0 →
      (UpdateCartItemView_patch s user pk (some qv)).1
          = UpdateCartResult.ok { item with quantity := qv.toNat } ∧
      { item with quantity := qv.toNat } ∈ (UpdateCartItemView_patch s user pk (some qv)).2.cartItems ∧
      (∀ j ∈ s.cartItems, j.id ≠ pk → j ∈ (UpdateCartItemView_patch s user pk (some qv)).2.cartItems) ∧
      (∀ j ∈ (UpdateCartItemView_patch s user pk (some qv)).2.cartItems, j.id ≠ pk → j ∈ s.cartItems) ∧
      (UpdateCartItemView_patch s user pk (some qv)).2.cartItems.length = s.cartItems.length) ∧
    (qv ≤ 0 →
      (UpdateCartItemView_patch s user pk (some qv)).1 = UpdateCartResult.deleted ∧
      (UpdateCartItemView_patch s user pk (some qv)).2.cartItems
          = s.cartItems.filter (fun i => !(i.id == pk))) := by
  have hmem : item ∈ s.cartItems := List.mem_of_find?_eq_some hfind
  have hpred := List.find?_some hfind
  have hid : item.id = pk := by
    have hb := (Bool.and_eq_true _ _).mp hpred
    exact beq_iff_eq.mp hb.1
  constructor
  · intro hq
    have hres : UpdateCartItemView_patch s user pk (some qv)
        = (UpdateCartResult.ok { item with quantity := qv.toNat },
           { s with cartItems := s.cartItems.map fun i =>
               if i.id == pk then { i with quantity := qv.toNat } else i }) := by
      simp only [UpdateCartItemView_patch, hfind]
      rw [if_pos hq]
    rw [hres]
    refine ⟨rfl, ?_, ?_, ?_, by simp⟩
    · have himg : (fun i => if i.id == pk then { i with quantity := qv.toNat } else i) item
          = { item with quantity := qv.toNat } := by
        simp [hid]
      exact himg ▸ List.mem_map_of_mem _ hmem
    · intro j hj hjne
      have himg : (fun i => if i.id == pk then { i with quantity := qv.toNat } else i) j = j := by
        simp [hjne]
      exact himg ▸ List.mem_map_of_mem _ hj
    · intro j hj hjne
      obtain ⟨i, hi, hfi⟩ := List.mem_map.mp hj
      by_cases hip : i.id = pk
      · exfalso
        rw [if_pos (beq_iff_eq.mpr hip)] at hfi
        apply hjne
        rw [← hfi]
        exact hip
      · rw [if_neg (by simp [hip])] at hfi
        rw [← hfi]
        exact hi
  · intro hq
    have hres : UpdateCartItemView_patch s user pk (some qv)
        = (UpdateCartResult.deleted,
           { s with cartItems := s.cartItems.filter (fun i => !(i.id == pk)) }) := by
      simp only [UpdateCartItemView_patch, hfind]
      rw [if_neg (by omega)]
    rw [hres]
    exact ⟨rfl, rfl⟩

/-- Witness for C8 at a concrete cart line (id 100, user 1). -/
theorem C8_cart_update_or_delete_witness :
    (7 > (0 : Int) →
      (UpdateCartItemView_patch exState0 1 100 (some 7)).1
          = UpdateCartResult.ok { id := 100, cartUser := 1, productId := 10, quantity := (7 : Int).toNat } ∧
      ({ id := 100, cartUser := 1, productId := 10, quantity := (7 : Int).toNat } : CartItem)
          ∈ (UpdateCartItemView_patch exState0 1 100 (some 7)).2.cartItems ∧
      (∀ j ∈ exState0.cartItems, j.id ≠ 100 → j ∈ (UpdateCartItemView_patch exState0 1 100 (some 7)).2.cartItems) ∧
      (∀ j ∈ (UpdateCartItemView_patch exState0 1 100 (some 7)).2.cartItems, j.id ≠ 100 → j ∈ exState0.cartItems) ∧
      (UpdateCartItemView_patch exState0 1 100 (some 7)).2.cartItems.length = exState0.cartItems.length) ∧
    ((7 : Int) ≤ 0 →
      (UpdateCartItemView_patch exState0 1 100 (some 7)).1 = UpdateCartResult.deleted ∧
      (UpdateCartItemView_patch exState0 1 100 (some 7)).2.cartItems
          = exState0.cartItems.filter (fun i => !(i.id == 100))) :=
  C8_cart_update_or_delete exState0 1 100 ⟨100, 1, 10, 1⟩ 7 rfl

/-- C9: the default-address query returns the address flagged
`is_default` when exactly one is flagged; when none is flagged but the
user owns at least one address it returns some address of that user (the
first of the user's rows); and it answers `NotFound` (404) precisely when
the user owns zero addresses.  The view only reads state (it is embedded
as a pure function of the store). -/
theorem C9_default_address_query (s : OrdersState) (user : Nat) :
    (∀ a, s.addresses.filter (fun b => b.user == user && b.is_default) = [a] →
       DefaultShippingAddressView_get_object s user = .found a) ∧
    (s.addresses.filter (fun b => b.user == user && b.is_default) = [] →
       ∀ a rest, s.addresses.filter (fun b => b.user == user) = a :: rest →
         DefaultShippingAddressView_get_object s user = .found a ∧ a.user = user) ∧
    (DefaultShippingAddressView_get_object s user = .notFound ↔
       s.addresses.filter (fun b => b.user == user) = []) := by
  refine ⟨?_, ?_, ?_, ?_⟩
  · intro a h
    simp only [DefaultShippingAddressView_get_object, h]
  · intro h a rest h2
    constructor
    · simp only [DefaultShippingAddressView_get_object, h, h2]
    · have hmem : a ∈ s.addresses.filter (fun b => b.user == user) := by
        rw [h2]
        exact List.mem_cons_self a rest
      have := (List.mem_filter.mp hmem).2
      exact beq_iff_eq.mp this
  · intro h
    by_contra hne
    obtain ⟨a, rest, h2⟩ : ∃ a rest, s.addresses.filter (fun b => b.user == user) = a :: rest := by
      cases h3 : s.addresses.filter (fun b => b.user == user) with
      | nil => exact absurd h3 hne
      | cons a rest => exact ⟨a, rest, rfl⟩
    have hdef : s.addresses.filter (fun b => b.user == user && b.is_default) = [] ∨
        DefaultShippingAddressView_get_object s user ≠ .notFound := by
      cases h4 : s.addresses.filter (fun b => b.user == user && b.is_default) with
      | nil => exact Or.inl rfl
      | cons b t =>
        cases t with
        | nil =>
          right
          simp [DefaultShippingAddressView_get_object, h4]
        | cons c u =>
          right
          simp [DefaultShippingAddressView_get_object, h4]
    rcases hdef with h4 | h4
    · rw [DefaultShippingAddressView_get_object, h4, h2] at h
      exact absurd h (by simp)
    · exact h4 h
  · intro h
    have hdef : s.addresses.filter (fun b => b.user == user && b.is_default) = [] := by
      rw [List.filter_eq_nil_iff] at h ⊢
      intro a ha hcontra
      exact h a ha (by
        rw [Bool.and_eq_true] at hcontra
        exact hcontra.1)
    simp only [DefaultShippingAddressView_get_object, hdef, h]

/-- Witness for C9 at three concrete stores: one flagged default, one
address with no default flag, and no addresses at all. -/
theorem C9_default_address_query_witness :
    (DefaultShippingAddressView_get_object exStateDefAddr 1 = .found exAddrDefault) ∧
    (DefaultShippingAddressView_get_object exStatePlainAddr 1 = .found exAddrPlain ∧
      exAddrPlain.user = 1) ∧
    (DefaultShippingAddressView_get_object exStateNoAddr 1 = .notFound) :=
  ⟨(C9_default_address_query exStateDefAddr 1).1 exAddrDefault (by decide),
   (C9_default_address_query exStatePlainAddr 1).2.1 (by decide) exAddrPlain [] (by decide),
   (C9_default_address_query exStateNoAddr 1).2.2.mpr (by decide)⟩

theorem countP_id_conj_of_nodup (l : List ShippingAddress) (a : ShippingAddress) (u : Nat)
    (hnd : (l.map (fun b => b.id)).Nodup) (ha : a ∈ l) (hu : a.user = u) :
    l.countP (fun b => b.id == a.id && b.user == u) = 1 := by
  induction l with
  | nil => cases ha
  | cons c t ih =>
    rw [List.map_cons, List.nodup_cons] at hnd
    obtain ⟨hc, hndt⟩ := hnd
    by_cases hca : c.id = a.id
    · have hat : a ∉ t := by
        intro hat
        exact hc (hca ▸ List.mem_map_of_mem (fun b => b.id) hat)
      have hac : a = c := by
        rcases List.mem_cons.mp ha with h | h
        · exact h
        · exact absurd h hat
      rw [List.countP_cons]
      have ht0 : t.countP (fun b => b.id == a.id && b.user == u) = 0 := by
        rw [List.countP_eq_zero]
        intro b hb hcontra
        rw [Bool.and_eq_true] at hcontra
        have hbid : b.id = a.id := beq_iff_eq.mp hcontra.1
        exact hc (hca ▸ hbid ▸ List.mem_map_of_mem (fun b => b.id) hb)
      rw [ht0, if_pos]
      rw [← hac, hu]
      simp
    · rw [List.countP_cons, if_neg]
      · have hat : a ∈ t := by
          rcases List.mem_cons.mp ha with h | h
          · exact absurd (congrArg (fun b => b.id) h).symm hca
          · exact h
        rw [ih hndt hat]
      · simp [hca]

theorem countP_fresh_id_zero (l : List ShippingAddress) (n : Nat)
    (h : ∀ a ∈ l, a.id < n) (u : Nat) :
    l.countP (fun b => b.id == n && b.user == u) = 0 := by
  rw [List.countP_eq_zero]
  intro a ha hc
  rw [Bool.and_eq_true] at hc
  exact absurd (beq_iff_eq.mp hc.1) (Nat.ne_of_lt (h a ha))

theorem getOrCreateAddress_count_spec {s : OrdersState} {u : Nat} {f : AddressFields}
    {s1 : OrdersState} {addr : ShippingAddress}
    (hnd : (s.addresses.map (fun a => a.id)).Nodup)
    (hlt : ∀ a ∈ s.addresses, a.id < s.nextId)
    (h : getOrCreateAddress s u f = some (s1, addr)) :
    s1.addresses.countP (fun b => b.id == addr.id && b.user == u) = 1 := by
  unfold getOrCreateAddress at h
  cases hfl : s.addresses.filter (addrMatches u f) with
  | nil =>
    rw [hfl] at h
    simp only [Option.some.injEq, Prod.mk.injEq] at h
    obtain ⟨h1, h2⟩ := h
    rw [← h1, ← h2]
    simp only [List.countP_cons]
    rw [countP_fresh_id_zero s.addresses s.nextId hlt u]
    simp
  | cons a t =>
    cases t with
    | nil =>
      rw [hfl] at h
      simp only [Option.some.injEq, Prod.mk.injEq] at h
      obtain ⟨h1, h2⟩ := h
      have hmem : a ∈ s.addresses.filter (addrMatches u f) := by
        rw [hfl]
        exact List.mem_cons_self a []
      obtain ⟨hmem', hmatch⟩ := List.mem_filter.mp hmem
      have hu : a.user = u := by
        simp only [addrMatches, Bool.and_eq_true, beq_iff_eq] at hmatch
        exact hmatch.1.1.1.1.1.1
      rw [← h1, ← h2]
      exact countP_id_conj_of_nodup s.addresses a u hnd hmem' hu
    | cons b t2 =>
      rw [hfl] at h
      simp at h

theorem setDefaultAddress_countP (s : OrdersState) (u aid : Nat) :
    (setDefaultAddress s u aid).addresses.countP (fun a => a.user == u && a.is_default)
      = s.addresses.countP (fun a => a.id == aid && a.user == u) := by
  simp only [setDefaultAddress, List.countP_map]
  apply List.countP_congr
  intro a _
  by_cases h1 : a.id = aid
  · simp [Function.comp, h1]
  · by_cases h2 : a.user = u
    · by_cases h3 : a.is_default
      · simp [Function.comp, h1, h2, h3]
      · simp [Function.comp, h1, h2, h3]
    · simp [Function.comp, h1, h2]

/-- C4 fails on the code: `is_default` has model default `True`, so a
checkout that creates a fresh address WITHOUT the default flag still
creates it flagged default.  Concretely: checkout with address A (no
flag), refill the cart, checkout with a different address B (no flag) —
user 1 then has TWO addresses flagged default, and already the first
flag-less checkout produced a default-flagged address. -/
theorem C4_counterexample :
    (PlaceOrderView_post exState0 exInp3999).2.addresses.map (fun a => a.is_default)
        = [true] ∧
    (PlaceOrderView_post
       (AddToCartView_post (PlaceOrderView_post exState0 exInp3999).2 1 (some "relic") 1).2
       exInpB).2.addresses.countP (fun a => a.user == 1 && a.is_default) = 2 := by
  refine ⟨by decide, by decide⟩

/-- C4 amended: the clear-then-set part of the claim holds — whenever a
successful checkout is asked to make the resolved address the default, it
clears `is_default` on every other address of that user before setting it
on the resolved one, so immediately afterwards exactly one address of
that user is flagged default.  The rest of the claim is false: an address
created without the default flag IS created default (model default
`True`), so the at-most-one-default invariant does not hold across
flag-less checkouts. -/
theorem C4_amended_make_default_leaves_one (s : OrdersState) (inp : CheckoutInput)
    (n : String) (s' : OrdersState)
    (hnd : (s.addresses.map (fun a => a.id)).Nodup)
    (hlt : ∀ a ∈ s.addresses, a.id < s.nextId)
    (hdef : inp.isDefault = true)
    (h : PlaceOrderView_post s inp = (.created n, s')) :
    s'.addresses.countP (fun a => a.user == inp.user && a.is_default) = 1 := by
  obtain ⟨s1, addr, total, newItems, hgca, -, -, hrest⟩ := placeOrder_created_inv h
  dsimp only at hrest
  obtain ⟨-, -, hs'⟩ := hrest
  rw [hdef] at hs'
  simp only [if_true] at hs'
  have haddr : s'.addresses = (setDefaultAddress s1 inp.user addr.id).addresses := by
    rw [hs']
  rw [haddr, setDefaultAddress_countP]
  exact getOrCreateAddress_count_spec hnd hlt hgca

/-- Witness for the amended C4 at a concrete make-default checkout. -/
theorem C4_amended_make_default_leaves_one_witness :
    (PlaceOrderView_post exState0 exInpDefault).2.addresses.countP
        (fun a => a.user == exInpDefault.user && a.is_default) = 1 :=
  C4_amended_make_default_leaves_one exState0 exInpDefault "ORD-201"
    (PlaceOrderView_post exState0 exInpDefault).2 (by decide) (by decide) rfl rfl

theorem filter_map_update (l : List Payment) (pid : String) (upd : Payment → Payment)
    (h : ∀ q, (upd q).payment_id = q.payment_id) :
    (l.map (fun p => if p.payment_id == pid then upd p else p)).filter
        (fun p => p.payment_id == pid)
      = (l.filter (fun p => p.payment_id == pid)).map upd := by
  induction l with
  | nil => rfl
  | cons q t ih =>
    by_cases hq : q.payment_id = pid
    · have hbq : (q.payment_id == pid) = true := beq_iff_eq.mpr hq
      rw [List.map_cons, if_pos hbq, List.filter_cons, h q, if_pos hbq,
        List.filter_cons, if_pos hbq, List.map_cons, ih]
    · have hnbq : ¬((q.payment_id == pid) = true) := by simp [hq]
      rw [List.map_cons, if_neg hnbq, List.filter_cons, if_neg hnbq,
        List.filter_cons, if_neg hnbq]
      exact ih

theorem stripe_webhook_succ_found {s : PayState} {pid : String} {p : Payment} (now : Nat)
    (hp : paymentsById s pid = [p]) :
    stripe_webhook s (some ⟨.paymentIntentSucceeded, pid⟩) now =
      (.ok200,
       { payments := s.payments.map (fun q => if q.payment_id == pid
            then { q with status := .succeeded, completed_at := some now } else q),
         transactions := { id := s.nextId, paymentPk := p.id, transaction_id := some pid,
                           transaction_type := "charge", amount := p.amount,
                           status := "succeeded" } :: s.transactions,
         paymentLogs := { paymentPk := some p.id, event_type := "payment_succeeded",
                          level := "info" } :: s.paymentLogs,
         loggerWarnings := s.loggerWarnings,
         nextId := s.nextId + 1 }) := by
  simp only [stripe_webhook, hp, savePaymentById]

theorem stripe_webhook_fail_found {s : PayState} {pid : String} {p : Payment} (now : Nat)
    (hp : paymentsById s pid = [p]) :
    stripe_webhook s (some ⟨.paymentIntentFailed, pid⟩) now =
      (.ok200,
       { payments := s.payments.map (fun q => if q.payment_id == pid
            then { q with status := .failed } else q),
         transactions := s.transactions,
         paymentLogs := { paymentPk := some p.id, event_type := "payment_failed",
                          level := "error" } :: s.paymentLogs,
         loggerWarnings := s.loggerWarnings,
         nextId := s.nextId }) := by
  simp only [stripe_webhook, hp, savePaymentById]

/-- C6: a verified Stripe event (succeeded or failed) whose intent id
matches no stored Payment is acknowledged with 200, changes no Payment,
Transaction or PaymentLog row (and a fortiori creates none), and emits
exactly one logger warning.  (The handler never touches the orders app's
tables at all.) -/
theorem C6_unknown_payment_event_dropped (s : PayState) (ev : StripeEvent) (now : Nat)
    (htype : ev.type = .paymentIntentSucceeded ∨ ev.type = .paymentIntentFailed)
    (hunknown : paymentsById s ev.intentId = []) :
    (stripe_webhook s (some ev) now).1 = .ok200 ∧
    (stripe_webhook s (some ev) now).2.payments = s.payments ∧
    (stripe_webhook s (some ev) now).2.transactions = s.transactions ∧
    (stripe_webhook s (some ev) now).2.paymentLogs = s.paymentLogs ∧
    (stripe_webhook s (some ev) now).2.loggerWarnings
      = ("Payment not found for intent: " ++ ev.intentId) :: s.loggerWarnings := by
  obtain ⟨t, i⟩ := ev
  simp only at htype hunknown ⊢
  rcases htype with h | h <;> subst h <;>
    exact ⟨by simp [stripe_webhook, hunknown], by simp [stripe_webhook, hunknown],
           by simp [stripe_webhook, hunknown], by simp [stripe_webhook, hunknown],
           by simp [stripe_webhook, hunknown]⟩

/-- Witness for C6: a verified success event for unknown intent `pi_x`. -/
theorem C6_unknown_payment_event_dropped_witness :
    (stripe_webhook exPayState (some ⟨.paymentIntentSucceeded, "pi_x"⟩) 11).1 = .ok200 ∧
    (stripe_webhook exPayState (some ⟨.paymentIntentSucceeded, "pi_x"⟩) 11).2.payments
        = exPayState.payments ∧
    (stripe_webhook exPayState (some ⟨.paymentIntentSucceeded, "pi_x"⟩) 11).2.transactions
        = exPayState.transactions ∧
    (stripe_webhook exPayState (some ⟨.paymentIntentSucceeded, "pi_x"⟩) 11).2.paymentLogs
        = exPayState.paymentLogs ∧
    (stripe_webhook exPayState (some ⟨.paymentIntentSucceeded, "pi_x"⟩) 11).2.loggerWarnings
        = ("Payment not found for intent: " ++ "pi_x") :: exPayState.loggerWarnings :=
  C6_unknown_payment_event_dropped exPayState ⟨.paymentIntentSucceeded, "pi_x"⟩ 11
    (Or.inl rfl) (by decide)

/-- C3 fails on the code: delivering the identical verified success event
twice to a pending Payment leaves it `succeeded` but appends a SECOND
Transaction with the same `transaction_id` — the handler has no
idempotency check, so the Transaction count is 2, not 1. -/
theorem C3_counterexample :
    ((stripe_webhook (stripe_webhook exPayState (some exEvSucc) 11).2
        (some exEvSucc) 12).2.payments.map (fun p => p.status) = [PayStatus.succeeded]) ∧
    ((stripe_webhook (stripe_webhook exPayState (some exEvSucc) 11).2
        (some exEvSucc) 12).2.transactions.countP
        (fun t => t.transaction_id == some "pi_1") = 2) := by
  refine ⟨by decide, by decide⟩

/-- C3 amended: the first delivery of a verified success event for a
pending Payment sets it `succeeded` and appends one Transaction carrying
the event's id; a second identical delivery leaves the status `succeeded`
but, lacking any idempotency-key check, appends a second Transaction with
the same id, so after two deliveries the Transaction count for that id is
2 (not 1 as the spec claims). -/
theorem C3_amended_duplicate_event_appends_again (s : PayState) (p : Payment)
    (now1 now2 : Nat)
    (hp : paymentsById s p.payment_id = [p])
    (h0 : s.transactions.countP (fun t => t.transaction_id == some p.payment_id) = 0) :
    (((stripe_webhook s (some ⟨.paymentIntentSucceeded, p.payment_id⟩) now1).2.payments.filter
        (fun q => q.payment_id == p.payment_id)).map (fun q => q.status)
        = [PayStatus.succeeded]) ∧
    ((stripe_webhook s (some ⟨.paymentIntentSucceeded, p.payment_id⟩) now1).2.transactions.countP
        (fun t => t.transaction_id == some p.payment_id) = 1) ∧
    (((stripe_webhook (stripe_webhook s (some ⟨.paymentIntentSucceeded, p.payment_id⟩) now1).2
        (some ⟨.paymentIntentSucceeded, p.payment_id⟩) now2).2.payments.filter
        (fun q => q.payment_id == p.payment_id)).map (fun q => q.status)
        = [PayStatus.succeeded]) ∧
    ((stripe_webhook (stripe_webhook s (some ⟨.paymentIntentSucceeded, p.payment_id⟩) now1).2
        (some ⟨.paymentIntentSucceeded, p.payment_id⟩) now2).2.transactions.countP
        (fun t => t.transaction_id == some p.payment_id) = 2) := by
  have hfil : s.payments.filter (fun q => q.payment_id == p.payment_id) = [p] := hp
  have h1 := stripe_webhook_succ_found now1 hp
  have hpres : ∀ q : Payment,
      ({ q with status := PayStatus.succeeded, completed_at := some now1 } : Payment).payment_id
        = q.payment_id := fun _ => rfl
  have hfil1 : (stripe_webhook s (some ⟨.paymentIntentSucceeded, p.payment_id⟩) now1).2.payments.filter
      (fun q => q.payment_id == p.payment_id)
        = [{ p with status := PayStatus.succeeded, completed_at := some now1 }] := by
    rw [h1]
    rw [filter_map_update _ _ _ hpres, hfil]
    rfl
  have hp1 : paymentsById (stripe_webhook s (some ⟨.paymentIntentSucceeded, p.payment_id⟩) now1).2
      p.payment_id = [{ p with status := PayStatus.succeeded, completed_at := some now1 }] := hfil1
  have h2 := stripe_webhook_succ_found now2 hp1
  have hpres2 : ∀ q : Payment,
      ({ q with status := PayStatus.succeeded, completed_at := some now2 } : Payment).payment_id
        = q.payment_id := fun _ => rfl
  refine ⟨?_, ?_, ?_, ?_⟩
  · rw [hfil1]
    rfl
  · rw [h1]
    simp only [List.countP_cons]
    rw [h0]
    simp
  · rw [h2]
    rw [filter_map_update _ _ _ hpres2, hfil1]
    rfl
  · rw [h2]
    simp only [List.countP_cons]
    rw [h1]
    simp only [List.countP_cons]
    rw [h0]
    simp

/-- Witness for the amended C3 at the concrete pending payment `pi_1`. -/
theorem C3_amended_duplicate_event_appends_again_witness :
    (((stripe_webhook exPayState (some ⟨.paymentIntentSucceeded, exPayPending.payment_id⟩) 11).2.payments.filter
        (fun q => q.payment_id == exPayPending.payment_id)).map (fun q => q.status)
        = [PayStatus.succeeded]) ∧
    ((stripe_webhook exPayState (some ⟨.paymentIntentSucceeded, exPayPending.payment_id⟩) 11).2.transactions.countP
        (fun t => t.transaction_id == some exPayPending.payment_id) = 1) ∧
    (((stripe_webhook (stripe_webhook exPayState (some ⟨.paymentIntentSucceeded, exPayPending.payment_id⟩) 11).2
        (some ⟨.paymentIntentSucceeded, exPayPending.payment_id⟩) 12).2.payments.filter
        (fun q => q.payment_id == exPayPending.payment_id)).map (fun q => q.status)
        = [PayStatus.succeeded]) ∧
    ((stripe_webhook (stripe_webhook exPayState (some ⟨.paymentIntentSucceeded, exPayPending.payment_id⟩) 11).2
        (some ⟨.paymentIntentSucceeded, exPayPending.payment_id⟩) 12).2.transactions.countP
        (fun t => t.transaction_id == some exPayPending.payment_id) = 2) :=
  C3_amended_duplicate_event_appends_again exPayState exPayPending 11 12 (by decide) (by decide)

/-- C5 fails on the code: `succeeded` is not terminal — the failed-event
handler overwrites the status unconditionally, so a verified
`payment_intent.payment_failed` delivered after success moves the Payment
from `succeeded` to `failed`. -/
theorem C5_counterexample :
    exPayStateS.payments.map (fun p => p.status) = [PayStatus.succeeded] ∧
    (stripe_webhook exPayStateS (some exEvFail) 13).2.payments.map (fun p => p.status)
        = [PayStatus.failed] := by
  refine ⟨by decide, by decide⟩

/-- C5 amended: the Stripe handlers apply the event's outcome
unconditionally, never consulting the current status — for ANY stored
status (pending, succeeded, refunded, …) a verified failed event sets the
Payment to `failed`; `succeeded` and `refunded` are not terminal. -/
theorem C5_amended_failed_event_overwrites (s : PayState) (p : Payment) (now : Nat)
    (hp : paymentsById s p.payment_id = [p]) :
    ((stripe_webhook s (some ⟨.paymentIntentFailed, p.payment_id⟩) now).2.payments.filter
        (fun q => q.payment_id == p.payment_id)).map (fun q => q.status)
      = [PayStatus.failed] := by
  have hfil : s.payments.filter (fun q => q.payment_id == p.payment_id) = [p] := hp
  have hpay : (stripe_webhook s (some ⟨.paymentIntentFailed, p.payment_id⟩) now).2.payments
      = s.payments.map (fun q => if q.payment_id == p.payment_id
          then { q with status := PayStatus.failed } else q) := by
    rw [stripe_webhook_fail_found now hp]
  rw [hpay, filter_map_update s.payments p.payment_id
    (fun q => { q with status := PayStatus.failed }) (fun _ => rfl), hfil]
  rfl

/-- Witness for the amended C5: the failed event applied to the concrete
`succeeded` payment. -/
theorem C5_amended_failed_event_overwrites_witness :
    ((stripe_webhook exPayStateS (some ⟨.paymentIntentFailed, exPaySucceeded.payment_id⟩) 13).2.payments.filter
        (fun q => q.payment_id == exPaySucceeded.payment_id)).map (fun q => q.status)
      = [PayStatus.failed] :=
  C5_amended_failed_event_overwrites exPayStateS exPaySucceeded 13 (by decide)

end ECommerce
